import Mathlib

set_option linter.unusedVariables false
set_option maxRecDepth 8000

/-!
Verification of the Film-Scanner repository's alignment core.

The definitions below are a shallow embedding of the Python sources:

* `optimized_edge_detect.py` — gap run-length encoding (`detect_frame_gaps`,
  lines 67–120), the alignment classifier (`_classify_alignment`) and the
  pixel-to-step conversion (`pixels_to_motor_steps`);
* `scanner_app_improved.py` / `Scanner_debug.py` — the bounded auto-align loop;
* `web_app.py` — the `/api/calibrate` route (`capture_frame2` branch);
* `scanner_hybrid.py` — `capture_image` and its state persistence.

Python floats are modelled as exact rationals (`ℚ`); Python's `int(...)`
truncation toward zero is `pyInt`.  String `message` fields and debug
drawing are presentation-only and are omitted; every field that feeds a
decision is kept.
-/

namespace FilmScanner

/-- Python `int(q)`: truncation toward zero on a rational. -/
def pyInt (q : ℚ) : ℤ := if 0 ≤ q then ⌊q⌋ else ⌈q⌉

/-- A detected gap region, as built by `detect_frame_gaps`
(`optimized_edge_detect.py`, lines 83–90).  The dict keys `center`, `start`,
`end`, `width`, `percent` are kept (`end` is renamed `stop`); `brightness`
is omitted — no classification decision reads it. -/
structure Gap where
  start : ℕ
  stop : ℕ
  center : ℕ
  width : ℕ
  percent : ℚ
deriving DecidableEq, Repr

/-- The `status` strings returned by `_classify_alignment`. -/
inductive Status where
  | PERFECT_ALIGNMENT
  | GOOD_ALIGNMENT
  | FRAME_LEFT
  | FRAME_RIGHT
  | NEEDS_FINE_TUNE
  | FRAME_ENTERING_LEFT
  | MULTIPLE_FRAMES
  | FRAME_EXITING_RIGHT
  | UNCERTAIN
  | NO_GAPS_DETECTED
deriving DecidableEq, Repr

/-- The `action` strings returned by `_classify_alignment`. -/
inductive Action where
  | CAPTURE
  | CAPTURE_OK
  | ADVANCE_FINE
  | ADVANCE_MEDIUM
  | ADVANCE_COARSE
  | BACKUP_FINE
  | BACKUP_MEDIUM
deriving DecidableEq, Repr

/-- Movement direction implied by an action (the spec's
`direction ∈ {forward, backward, none}`): `H…` advance commands are
forward, `h…` backup commands are backward, captures carry no movement. -/
inductive Direction where
  | forward
  | backward
deriving DecidableEq, Repr

/-- An alignment decision: the `status`/`action`/`movement` fields of the
dict returned by `_classify_alignment` (`message` is presentation-only
and omitted). -/
structure Decision where
  status : Status
  action : Action
  movement : Option ℤ
deriving DecidableEq, Repr

/-- Direction of an action per `get_motor_command` / `smart_align_step`:
`ADVANCE_*` emit a forward `H` command, `BACKUP_*` a backward `h` command,
`CAPTURE`/`CAPTURE_OK` emit none. -/
def actionDirection : Action → Option Direction
  | .CAPTURE => none
  | .CAPTURE_OK => none
  | .ADVANCE_FINE => some .forward
  | .ADVANCE_MEDIUM => some .forward
  | .ADVANCE_COARSE => some .forward
  | .BACKUP_FINE => some .backward
  | .BACKUP_MEDIUM => some .backward

/-- The spec's `direction` field of a decision. -/
def direction (d : Decision) : Option Direction := actionDirection d.action

/-- The spec's `pixel_distance` field of a decision: the magnitude moved,
`0` when the decision carries no movement. -/
def pixelDistance (d : Decision) : ℤ := (d.movement.getD 0)

/-- `_classify_alignment` (`optimized_edge_detect.py`, lines 216–338).
Thresholds are the source constants: `TARGET_CENTER_MIN = 40`,
`TARGET_CENTER_MAX = 60`, `TARGET_CENTER_IDEAL = 50`, `EDGE_ZONE = 15`,
`MAX_GAP_SIZE = 100`.  `frame_width` is a parameter of the Python function
but is never read by it.  `frame_center_percent` is only meaningful (and in
the Python caller only ever non-`None`) when both gaps are present. -/
def classifyAlignment (left_gap right_gap : Option Gap) (frame_width : Option ℤ)
    (frame_center_percent : ℚ) (img_width : ℕ) : Decision :=
  match left_gap, right_gap with
  | some lg, some rg =>
    if lg.percent < 15 ∧ 85 < rg.percent ∧ (lg.width < 100 ∧ rg.width < 100) ∧
        (40 ≤ frame_center_percent ∧ frame_center_percent ≤ 60) then
      ⟨.PERFECT_ALIGNMENT, .CAPTURE, none⟩
    else if (40 ≤ frame_center_percent ∧ frame_center_percent ≤ 60) ∧
        (lg.width < 100 ∧ rg.width < 100) then
      ⟨.GOOD_ALIGNMENT, .CAPTURE_OK, none⟩
    else if frame_center_percent < 40 then
      ⟨.FRAME_LEFT, .ADVANCE_MEDIUM,
        some (pyInt ((50 - frame_center_percent) / 100 * img_width))⟩
    else if 60 < frame_center_percent then
      ⟨.FRAME_RIGHT, .BACKUP_MEDIUM,
        some (pyInt ((frame_center_percent - 50) / 100 * img_width))⟩
    else if rg.width < lg.width then
      ⟨.NEEDS_FINE_TUNE, .ADVANCE_FINE, some 30⟩
    else
      ⟨.NEEDS_FINE_TUNE, .BACKUP_FINE, some 30⟩
  | none, some rg =>
    if 75 < rg.percent then
      ⟨.FRAME_ENTERING_LEFT, .BACKUP_FINE,
        some (pyInt ((rg.percent - 50) / 100 * img_width))⟩
    else
      ⟨.MULTIPLE_FRAMES, .ADVANCE_MEDIUM, some (pyInt ((img_width : ℚ) * 3 / 10))⟩
  | some lg, none =>
    if lg.percent < 25 then
      ⟨.FRAME_EXITING_RIGHT, .ADVANCE_COARSE,
        some (pyInt ((50 - lg.percent) / 100 * img_width))⟩
    else
      ⟨.UNCERTAIN, .ADVANCE_FINE, some 50⟩
  | none, none =>
    ⟨.NO_GAPS_DETECTED, .ADVANCE_COARSE, some (pyInt ((img_width : ℚ) * 4 / 10))⟩

/-- The run-length-encoding loop of `detect_frame_gaps`
(`optimized_edge_detect.py`, lines 67–91): walk the boolean gap mask with
state `(in_gap, gap_start)`; a region is closed only on a transition from a
gap column to a non-gap column, and is kept only if `10 < width < 250`.
`w` is the image width, used for the `percent` field; `i` is the index of
the head of `ms` in the full mask; `acc` collects closed regions in reverse
order. -/
def findGapRegionsAux (w : ℕ) : List Bool → ℕ → Bool → ℕ → List Gap → List Gap
  | [], _, _, _, acc => acc.reverse
  | b :: rest, i, inGap, gapStart, acc =>
    if b ∧ ¬inGap then
      findGapRegionsAux w rest (i + 1) true i acc
    else if ¬b ∧ inGap then
      let gw := i - gapStart
      let acc' :=
        if 10 < gw ∧ gw < 250 then
          { start := gapStart, stop := i, center := (gapStart + i) / 2, width := gw,
            percent := (((gapStart + i) / 2 : ℕ) : ℚ) / w * 100 } :: acc
        else acc
      findGapRegionsAux w rest (i + 1) false gapStart acc'
    else
      findGapRegionsAux w rest (i + 1) inGap gapStart acc

/-- The gap list produced by `detect_frame_gaps` from the per-column gap
mask (`gap_mask` in the source); the mask has one entry per image column. -/
def findGapRegions (w : ℕ) (mask : List Bool) : List Gap :=
  findGapRegionsAux w mask 0 false 0 []

/-- The comparison step of Python's `max(…, key=lambda g: g['width'])`:
a candidate replaces the running maximum only when strictly wider. -/
def pickWider (best x : Gap) : Gap := if best.width < x.width then x else best

/-- Python's `max(gaps, key=lambda g: g['width'])` on a possibly-empty
list: the first element of maximal width. -/
def maxByWidth : List Gap → Option Gap
  | [] => none
  | g :: gs => some (gs.foldl pickWider g)

/-- `left_gaps = [g for g in gaps if g['percent'] < 50]`. -/
def leftGapsOf (gaps : List Gap) : List Gap :=
  gaps.filter (fun g => decide (g.percent < 50))

/-- `right_gaps = [g for g in gaps if g['percent'] >= 50]`. -/
def rightGapsOf (gaps : List Gap) : List Gap :=
  gaps.filter (fun g => decide (50 ≤ g.percent))

/-- `left_gap = max(left_gaps, key=width) if left_gaps else None`. -/
def selectLeftGap (gaps : List Gap) : Option Gap := maxByWidth (leftGapsOf gaps)

/-- `right_gap = max(right_gaps, key=width) if right_gaps else None`. -/
def selectRightGap (gaps : List Gap) : Option Gap := maxByWidth (rightGapsOf gaps)

/-- Frame metrics of `detect_frame_gaps` (`optimized_edge_detect.py`,
lines 101–117): `(frame_width, frame_center_percent)` from the selected
gaps.  With one gap the frame center is estimated as the gap center
± `int(w * 0.3)`. -/
def frameMetrics (left_gap right_gap : Option Gap) (w : ℕ) : Option ℤ × Option ℚ :=
  match left_gap, right_gap with
  | some lg, some rg =>
    (some ((rg.center : ℤ) - lg.center),
     some ((((lg.center + rg.center) / 2 : ℕ) : ℚ) / w * 100))
  | some lg, none =>
    (none, some ((((lg.center : ℤ) + pyInt ((w : ℚ) * 3 / 10) : ℤ) : ℚ) / w * 100))
  | none, some rg =>
    (none, some ((((rg.center : ℤ) - pyInt ((w : ℚ) * 3 / 10) : ℤ) : ℚ) / w * 100))
  | none, none => (none, none)

/-- Classification from the selected left/right gaps, as `detect_frame_gaps`
invokes `_classify_alignment` (lines 101–120).  The `frame_center_percent`
passed to the classifier is `None` only when no gap is present, in which
case the classifier never reads it; `getD 0` stands for that unread
`None`. -/
def classifyFromSelections (left_gap right_gap : Option Gap) (w : ℕ) : Decision :=
  let m := frameMetrics left_gap right_gap w
  classifyAlignment left_gap right_gap m.1 (m.2.getD 0) w

/-- The detector-to-classifier pipeline on a detected gap list: select the
widest gap of each side of the midline, then classify. -/
def classifyFromGaps (gaps : List Gap) (w : ℕ) : Decision :=
  classifyFromSelections (selectLeftGap gaps) (selectRightGap gaps) w

/-- Invariant of the RLE loop: every region it ever emits has
`10 < width < 250` (the source's validity band) and a center strictly left
of the image width, provided the regions already accumulated do and the
head of `ms` sits at index `i` with `i + ms.length = w`. -/
lemma findGapRegionsAux_valid (w : ℕ) :
    ∀ (ms : List Bool) (i : ℕ) (inGap : Bool) (gapStart : ℕ) (acc : List Gap),
      i + ms.length = w →
      (∀ g ∈ acc, 10 < g.width ∧ g.width < 250 ∧ g.center < w) →
      ∀ g ∈ findGapRegionsAux w ms i inGap gapStart acc,
        10 < g.width ∧ g.width < 250 ∧ g.center < w := by
  intro ms
  induction ms with
  | nil =>
    intro i inGap gapStart acc hi hacc g hg
    simp only [findGapRegionsAux, List.mem_reverse] at hg
    exact hacc g hg
  | cons b rest ih =>
    intro i inGap gapStart acc hi hacc g hg
    simp only [List.length_cons] at hi
    simp only [findGapRegionsAux] at hg
    split_ifs at hg with h1 h2 h3
    · exact ih (i + 1) true i acc (by omega) hacc g hg
    · refine ih (i + 1) false gapStart _ (by omega) ?_ g hg
      intro g' hg'
      rcases List.mem_cons.mp hg' with hEq | hMem
      · subst hEq
        refine ⟨?_, ?_, ?_⟩
        · show 10 < i - gapStart
          omega
        · show i - gapStart < 250
          omega
        · show (gapStart + i) / 2 < w
          omega
      · exact hacc g' hMem
    · exact ih (i + 1) false gapStart acc (by omega) hacc g hg
    · exact ih (i + 1) inGap gapStart acc (by omega) hacc g hg

/-- C4: every gap region returned by the detector's run-length encoder
satisfies the validity bounds: its width lies in the configured band
(`10 < width < 250` in the source, which implies the spec's
`7 ≤ width ≤ 250`) and its center column lies inside the image,
`0 ≤ center < image_width` (the lower bound holds by the type). -/
theorem detected_gaps_satisfy_validity_bounds
    (mask : List Bool) (g : Gap)
    (hg : g ∈ findGapRegions mask.length mask) :
    7 ≤ g.width ∧ g.width ≤ 250 ∧ g.center < mask.length := by
  have h := findGapRegionsAux_valid mask.length mask 0 false 0 []
    (by simp) (by simp) g hg
  exact ⟨by omega, by omega, h.2.2⟩

/-- Concrete mask used to witness C4: one 12-column gap run bounded by
non-gap columns on both sides, in a 14-column image. -/
def maskWitness : List Bool := [false] ++ List.replicate 12 true ++ [false]

/-- The single region the detector reports on `maskWitness`. -/
def gapWitnessC4 : Gap := ⟨1, 13, 7, 12, 50⟩

/-- Evaluation of the detector on the C4 witness mask. -/
lemma findGapRegions_maskWitness :
    findGapRegions maskWitness.length maskWitness = [gapWitnessC4] := by
  with_unfolding_all decide

/-- Witness for C4: on `maskWitness` the detector reports `gapWitnessC4`,
and that region satisfies the validity bounds. -/
theorem detected_gaps_satisfy_validity_bounds_witness :
    gapWitnessC4 ∈ findGapRegions maskWitness.length maskWitness ∧
    (7 ≤ gapWitnessC4.width ∧ gapWitnessC4.width ≤ 250 ∧
      gapWitnessC4.center < maskWitness.length) :=
  ⟨by rw [findGapRegions_maskWitness]; exact List.mem_singleton.mpr rfl,
   detected_gaps_satisfy_validity_bounds maskWitness gapWitnessC4
     (by rw [findGapRegions_maskWitness]; exact List.mem_singleton.mpr rfl)⟩

/-- The RLE loop ignores a trailing all-gap run entirely: appending any
number of `true` columns to the mask leaves the accumulated result
unchanged, because a region is closed only on a transition to a non-gap
column and the trailing run never meets one. -/
lemma findGapRegionsAux_append_trailing_true (w : ℕ) :
    ∀ (ms : List Bool) (k i : ℕ) (inGap : Bool) (gapStart : ℕ) (acc : List Gap),
      findGapRegionsAux w (ms ++ List.replicate k true) i inGap gapStart acc =
      findGapRegionsAux w ms i inGap gapStart acc := by
  intro ms
  induction ms with
  | nil =>
    intro k
    induction k with
    | zero => intro i inGap gapStart acc; rfl
    | succ k ihk =>
      intro i inGap gapStart acc
      simp only [List.nil_append, List.replicate_succ, findGapRegionsAux]
      split_ifs with h1 h2 h3
      · simpa [findGapRegionsAux] using ihk (i + 1) true i acc
      · exact absurd trivial h2.1
      · exact absurd trivial h2.1
      · simpa [findGapRegionsAux] using ihk (i + 1) inGap gapStart acc
  | cons b rest ih =>
    intro k i inGap gapStart acc
    simp only [List.cons_append, findGapRegionsAux]
    split_ifs <;> apply ih

/-- C9: a gap run that extends through the right image border is never
reported.  Writing the mask as `pre ++ replicate k true` (the final `k`
columns are all gap columns), the detector's output is identical to its
output on `pre` alone — the final run is omitted from the returned gap
list regardless of its width. -/
theorem trailing_gap_run_never_reported (w k : ℕ) (pre : List Bool) :
    findGapRegions w (pre ++ List.replicate k true) = findGapRegions w pre :=
  findGapRegionsAux_append_trailing_true w pre k 0 false 0 []

/-- `pixels_to_motor_steps` (`optimized_edge_detect.py`, lines 341–346):
`int(pixels / pixels_per_step)`, nothing else — no clamping of any kind. -/
def pixels_to_motor_steps (pixels : ℚ) (pixels_per_step : ℚ) : ℤ :=
  pyInt (pixels / pixels_per_step)

/-- Python `int(...)` truncation toward zero is monotone non-decreasing. -/
lemma pyInt_mono {q₁ q₂ : ℚ} (h : q₁ ≤ q₂) : pyInt q₁ ≤ pyInt q₂ := by
  unfold pyInt
  split_ifs with h1 h2 h2
  · exact Int.floor_le_floor h
  · exact absurd (le_trans h1 h) h2
  · have hc : ⌈q₁⌉ ≤ 0 := Int.ceil_le.mpr (by exact_mod_cast (not_le.mp h1).le)
    have hf : (0 : ℤ) ≤ ⌊q₂⌋ := Int.le_floor.mpr (by exact_mod_cast h2)
    omega
  · exact Int.ceil_le_ceil h

/-- Terminal outcome of an auto-align run: aligned at some attempt index,
or the for-else timeout branch (`"Alignment timeout"` /
`"Alignment failed"`). -/
inductive AlignOutcome where
  | aligned (attempt : ℕ)
  | timeout
deriving DecidableEq, Repr

/-- One `smart_align_step` succeeds exactly when the detection result's
action is a capture action (`scanner_app_improved.py`, line 200 checks
`action in ['CAPTURE', 'CAPTURE_OK']`; `Scanner_debug.py`, line 378 checks
the subset `['CAPTURE']`). -/
def alignStepSucceeds (d : Decision) : Bool :=
  decide (d.action = Action.CAPTURE) || decide (d.action = Action.CAPTURE_OK)

/-- The auto-align `for attempt in range(ceiling): if step(): break /
else: timeout` loop (`scanner_app_improved.py`, lines 600–605 with ceiling
20; `Scanner_debug.py`, lines 726–732 with ceiling 15): `i` is the current
attempt index, the second argument the remaining attempts. -/
def autoAlignAux (step : ℕ → Bool) : ℕ → ℕ → AlignOutcome
  | _, 0 => .timeout
  | i, fuel + 1 => if step i then .aligned i else autoAlignAux step (i + 1) fuel

/-- A full auto-align run over the per-attempt detector/classifier outputs,
with the configured iteration ceiling. -/
def autoAlignRun (outputs : ℕ → Decision) (ceiling : ℕ) : AlignOutcome :=
  autoAlignAux (fun i => alignStepSucceeds (outputs i)) 0 ceiling

/-- The loop times out whenever no attempt below the remaining budget
succeeds. -/
lemma autoAlignAux_timeout (step : ℕ → Bool) :
    ∀ (fuel i : ℕ), (∀ j, i ≤ j → j < i + fuel → step j = false) →
      autoAlignAux step i fuel = .timeout := by
  intro fuel
  induction fuel with
  | zero => intro i h; rfl
  | succ fuel ih =>
    intro i h
    have hstep : step i = false := h i le_rfl (by omega)
    simp only [autoAlignAux, hstep, Bool.false_eq_true, if_false]
    exact ih (i + 1) (fun j hj1 hj2 => h j (by omega) (by omega))

/-- C5: for every sequence of detector/classifier outputs none of which is
an ALIGNED decision (action `CAPTURE` or `CAPTURE_OK`) within the iteration
ceiling, the auto-align loop terminates in the distinct alignment-timeout
outcome after exactly the ceiling's number of iterations — the recursion
consumes one unit of the ceiling per iteration, so it can never loop
forever. -/
theorem align_loop_times_out (outputs : ℕ → Decision) (ceiling : ℕ)
    (h : ∀ i, i < ceiling → (outputs i).action ≠ Action.CAPTURE ∧
          (outputs i).action ≠ Action.CAPTURE_OK) :
    autoAlignRun outputs ceiling = AlignOutcome.timeout := by
  refine autoAlignAux_timeout _ ceiling 0 (fun j hj1 hj2 => ?_)
  have hj : j < ceiling := by omega
  simp [alignStepSucceeds, (h j hj).1, (h j hj).2]

/-- A decision that is never aligned, used to witness C5. -/
def noGapDecision : Decision := ⟨.NO_GAPS_DETECTED, .ADVANCE_COARSE, some 1600⟩

/-- Witness for C5: with every attempt returning `NO_GAPS_DETECTED` /
`ADVANCE_COARSE`, the 15-iteration loop (the `Scanner_debug.py` ceiling)
ends in timeout. -/
theorem align_loop_times_out_witness :
    autoAlignRun (fun _ => noGapDecision) 15 = AlignOutcome.timeout :=
  align_loop_times_out (fun _ => noGapDecision) 15
    (fun i _ => by refine ⟨?_, ?_⟩ <;> simp [noGapDecision])

/-- The web scanner's session fields that feed the calibration flow and
`save_state` (`web_app.py`): `roll_name` (the empty string is Python-falsy),
the frame/strip counters, the motor position, the learned `frame_advance`
(`None` before calibration) and the mode string. `frame_positions`, the
status message and the timestamp written by `save_state` are
presentation/log-only and omitted. -/
structure WebScanner where
  rollName : String
  frameCount : ℕ
  stripCount : ℕ
  framesInStrip : ℕ
  position : ℤ
  frameAdvance : Option ℤ
  mode : String
deriving DecidableEq, Repr

/-- The JSON api response: `jsonify({'success': …, 'message': …})`. -/
structure ApiResponse where
  success : Bool
  message : String
deriving DecidableEq, Repr

/-- `save_state` (`web_app.py`, lines 500–520) serialises the session
fields to the state file; the durable store holds the last written
snapshot. -/
def saveStateWeb (sc : WebScanner) : WebScanner := sc

/-- The `capture_frame2` branch of the `/api/calibrate` route
(`web_app.py`, lines 810–846): guards (`roll_name` truthy, not already
calibrated), then `frame_advance = frame2_pos - frame1_pos` is assigned,
rejected as a hard error when ≤ 0 without touching the store;
on success the strip counter and mode are set and the state persisted.
`captureOk` abstracts `scanner.capture_image()`; `store` is the durable
state file contents.  Returns (response, in-memory scanner, store). -/
def calibrateCaptureFrame2 (sc : WebScanner) (store : Option WebScanner)
    (frame1Pos : ℤ) (captureOk : Bool) :
    ApiResponse × WebScanner × Option WebScanner :=
  if sc.rollName = "" then (⟨false, "Create roll first"⟩, sc, store)
  else if 0 < sc.stripCount then (⟨false, "Already calibrated"⟩, sc, store)
  else
    let frame2Pos := sc.position
    let sc1 := { sc with frameAdvance := some (frame2Pos - frame1Pos) }
    if frame2Pos - frame1Pos ≤ 0 then
      (⟨false, "Frame 2 must be ahead of frame 1"⟩, sc1, store)
    else if ¬captureOk then (⟨false, "Capture failed"⟩, sc1, store)
    else
      let sc2 := { sc1 with stripCount := 1, mode := "calibrated" }
      (⟨true, ""⟩, sc2, some (saveStateWeb sc2))

/-- C2: when the recorded advanced-frame position is not strictly ahead of
the reference position (`pos1 ≤ pos0`, i.e. `frame_advance ≤ 0`), the
calibration operation returns a hard error with the dedicated message,
persists nothing, and leaves the previously stored calibration value (the
durable `frame_advance` snapshot) untouched. -/
theorem calibration_rejects_non_advancing (sc : WebScanner)
    (store : Option WebScanner) (frame1Pos : ℤ) (captureOk : Bool)
    (hroll : sc.rollName ≠ "") (hstrip : sc.stripCount = 0)
    (hpos : sc.position ≤ frame1Pos) :
    (calibrateCaptureFrame2 sc store frame1Pos captureOk).1.success = false ∧
    (calibrateCaptureFrame2 sc store frame1Pos captureOk).1.message =
      "Frame 2 must be ahead of frame 1" ∧
    (calibrateCaptureFrame2 sc store frame1Pos captureOk).2.2 = store := by
  have hle : sc.position - frame1Pos ≤ 0 := by omega
  simp [calibrateCaptureFrame2, hroll, hstrip, hle]

/-- A pre-calibration scanner state used to witness C2: its durable store
still holds an old snapshot with `frame_advance = some 180`. -/
def scWitness : WebScanner := ⟨"roll1", 0, 0, 0, 100, none, "manual"⟩

/-- The previously persisted snapshot in the C2 witness. -/
def storedWitness : WebScanner := ⟨"roll1", 0, 0, 0, 40, some 180, "calibrated"⟩

/-- Witness for C2: at position 100 with `frame1_pos = 120` (the film was
moved backwards), the operation errors and the stored snapshot — including
its `frame_advance` — is exactly what it was. -/
theorem calibration_rejects_non_advancing_witness :
    scWitness.rollName ≠ "" ∧ scWitness.stripCount = 0 ∧
    scWitness.position ≤ 120 ∧
    ((calibrateCaptureFrame2 scWitness (some storedWitness) 120 true).1.success = false ∧
     (calibrateCaptureFrame2 scWitness (some storedWitness) 120 true).1.message =
       "Frame 2 must be ahead of frame 1" ∧
     (calibrateCaptureFrame2 scWitness (some storedWitness) 120 true).2.2 =
       some storedWitness) :=
  ⟨by decide, rfl, by decide,
   calibration_rejects_non_advancing scWitness (some storedWitness) 120 true
     (by decide) rfl (by decide)⟩

/-- The hybrid scanner's session fields saved by `save_state`
(`scanner_hybrid.py`, lines 341–352): `frame_count`, `position`,
`frame_advance`. -/
structure HybridScanner where
  frameCount : ℕ
  position : ℤ
  frameAdvance : Option ℤ
deriving DecidableEq, Repr

/-- `capture_image` (`scanner_hybrid.py`, lines 218–253): run the capture
subprocess; if the expected file exists afterwards, increment
`frame_count` and then `save_state`; on a subprocess exception or a
missing file, return `False` with nothing mutated and nothing persisted.
`fileExists` abstracts the `os.path.exists(filepath)` outcome (false also
covers the exception path).  Returns (success, scanner, durable store). -/
def captureImageHybrid (sc : HybridScanner) (store : Option HybridScanner)
    (fileExists : Bool) : Bool × HybridScanner × Option HybridScanner :=
  if fileExists then
    let sc' := { sc with frameCount := sc.frameCount + 1 }
    (true, sc', some sc')
  else (false, sc, store)

/-- C8: session counters are mutated and persisted only after a successful
capture.  If the final-image capture fails, the whole session state —
`frame_count` included — and the durable store are unchanged; if it
succeeds, `frame_count` is incremented exactly once and the persisted
snapshot is written immediately after the mutation, so it already carries
the incremented count (never the pre-mutation value). -/
theorem capture_persists_only_after_success (sc : HybridScanner)
    (store : Option HybridScanner) :
    captureImageHybrid sc store false = (false, sc, store) ∧
    (captureImageHybrid sc store true).2.1.frameCount = sc.frameCount + 1 ∧
    (captureImageHybrid sc store true).2.2 =
      some { sc with frameCount := sc.frameCount + 1 } := by
  refine ⟨rfl, rfl, rfl⟩

/-- The side of the midline a gap is classified to: `percent < 50` is the
left side, `percent ≥ 50` the right side. -/
def sidePred : Bool → Gap → Prop
  | true, g => g.percent < 50
  | false, g => 50 ≤ g.percent

/-- The gap the pipeline selects for a given side of the midline. -/
def sideSelect : Bool → List Gap → Option Gap
  | true, gaps => selectLeftGap gaps
  | false, gaps => selectRightGap gaps

/-- The running maximum of the width fold is one of its inputs. -/
lemma foldl_pickWider_mem : ∀ (l : List Gap) (g : Gap), l.foldl pickWider g ∈ g :: l := by
  intro l
  induction l with
  | nil => intro g; simp
  | cons x xs ih =>
    intro g
    have h := ih (pickWider g x)
    have hgx : pickWider g x = g ∨ pickWider g x = x := by
      unfold pickWider; split_ifs <;> simp
    simp only [List.foldl_cons]
    rcases List.mem_cons.mp h with hEq | hMem
    · rcases hgx with h' | h' <;> rw [hEq, h'] <;> simp
    · simp [List.mem_cons.mpr (Or.inr (List.mem_cons.mpr (Or.inr hMem)))]

/-- The width fold never drops below its starting width. -/
lemma foldl_pickWider_ge_init :
    ∀ (l : List Gap) (g : Gap), g.width ≤ (l.foldl pickWider g).width := by
  intro l
  induction l with
  | nil => intro g; simp
  | cons x xs ih =>
    intro g
    have h1 : g.width ≤ (pickWider g x).width := by
      unfold pickWider; split_ifs with h <;> omega
    exact le_trans h1 (ih (pickWider g x))

/-- The width fold dominates the width of every list element. -/
lemma foldl_pickWider_ge_mem :
    ∀ (l : List Gap) (g x : Gap), x ∈ l → x.width ≤ (l.foldl pickWider g).width := by
  intro l
  induction l with
  | nil => intro g x hx; simp at hx
  | cons y ys ih =>
    intro g x hx
    simp only [List.foldl_cons]
    rcases List.mem_cons.mp hx with hEq | hMem
    · subst hEq
      have h1 : x.width ≤ (pickWider g x).width := by
        unfold pickWider; split_ifs with h <;> omega
      exact le_trans h1 (foldl_pickWider_ge_init ys (pickWider g x))
    · exact ih (pickWider g y) x hMem

/-- `max(…, key=width)` returns a member of maximal width. -/
lemma maxByWidth_spec (l : List Gap) (m : Gap) (h : maxByWidth l = some m) :
    m ∈ l ∧ ∀ x ∈ l, x.width ≤ m.width := by
  cases l with
  | nil => simp [maxByWidth] at h
  | cons g gs =>
    simp only [maxByWidth, Option.some.injEq] at h
    subst h
    refine ⟨by simpa using foldl_pickWider_mem gs g, ?_⟩
    intro x hx
    rcases List.mem_cons.mp hx with hEq | hMem
    · subst hEq; exact foldl_pickWider_ge_init gs x
    · exact foldl_pickWider_ge_mem gs g x hMem

/-- A selected left gap really lies left of the midline. -/
lemma selectLeftGap_percent {gaps : List Gap} {m : Gap}
    (h : selectLeftGap gaps = some m) : m.percent < 50 := by
  have hm := (maxByWidth_spec _ m h).1
  simpa using (List.mem_filter.mp hm).2

/-- A selected right gap really lies right of the midline. -/
lemma selectRightGap_percent {gaps : List Gap} {m : Gap}
    (h : selectRightGap gaps = some m) : 50 ≤ m.percent := by
  have hm := (maxByWidth_spec _ m h).1
  simpa using (List.mem_filter.mp hm).2

/-- Reducing the gap list to just the two selected gaps leaves the left
selection unchanged. -/
lemma selectLeftGap_reduced (gaps : List Gap) :
    selectLeftGap ((selectLeftGap gaps).toList ++ (selectRightGap gaps).toList) =
      selectLeftGap gaps := by
  rcases hL : selectLeftGap gaps with _ | l <;> rcases hR : selectRightGap gaps with _ | r
  · simp [selectLeftGap, leftGapsOf, maxByWidth]
  · have hr := selectRightGap_percent hR
    simp [selectLeftGap, leftGapsOf, maxByWidth, List.filter, not_lt.mpr hr]
  · have hl := selectLeftGap_percent hL
    simp [selectLeftGap, leftGapsOf, maxByWidth, List.filter, hl]
  · have hl := selectLeftGap_percent hL
    have hr := selectRightGap_percent hR
    simp [selectLeftGap, leftGapsOf, maxByWidth, List.filter, hl, not_lt.mpr hr]

/-- Reducing the gap list to just the two selected gaps leaves the right
selection unchanged. -/
lemma selectRightGap_reduced (gaps : List Gap) :
    selectRightGap ((selectLeftGap gaps).toList ++ (selectRightGap gaps).toList) =
      selectRightGap gaps := by
  rcases hL : selectLeftGap gaps with _ | l <;> rcases hR : selectRightGap gaps with _ | r
  · simp [selectRightGap, rightGapsOf, maxByWidth]
  · have hr := selectRightGap_percent hR
    simp [selectRightGap, rightGapsOf, maxByWidth, List.filter, hr]
  · have hl := selectLeftGap_percent hL
    simp [selectRightGap, rightGapsOf, maxByWidth, List.filter, not_le.mpr hl]
  · have hl := selectLeftGap_percent hL
    have hr := selectRightGap_percent hR
    simp [selectRightGap, rightGapsOf, maxByWidth, List.filter, hr, not_le.mpr hl]

/-- C10: the alignment decision depends only on the widest valid gap on
each side of the midline.  Whenever a side's selection is `sel`, every
same-side gap in the detected list is at most as wide as `sel`, and the
pipeline's decision is unchanged when the list is reduced to just the two
selected gaps — all narrower same-side gaps are ignored. -/
theorem classification_uses_widest_gap_per_side (gaps : List Gap) (w : ℕ)
    (s : Bool) (sel g : Gap)
    (hsel : sideSelect s gaps = some sel) (hg : g ∈ gaps) (hside : sidePred s g) :
    g.width ≤ sel.width ∧
    classifyFromGaps gaps w =
      classifyFromGaps
        ((selectLeftGap gaps).toList ++ (selectRightGap gaps).toList) w := by
  constructor
  · cases s
    · have hmem : g ∈ rightGapsOf gaps := by
        refine List.mem_filter.mpr ⟨hg, ?_⟩
        simpa using (hside : 50 ≤ g.percent)
      exact (maxByWidth_spec _ sel hsel).2 g hmem
    · have hmem : g ∈ leftGapsOf gaps := by
        refine List.mem_filter.mpr ⟨hg, ?_⟩
        simpa using (hside : g.percent < 50)
      exact (maxByWidth_spec _ sel hsel).2 g hmem
  · unfold classifyFromGaps
    rw [selectLeftGap_reduced, selectRightGap_reduced]

/-- Wide left gap of the C10 witness list. -/
def gapC10_wide : Gap := ⟨390, 410, 400, 20, 10⟩

/-- Narrower left gap of the C10 witness list — ignored by the decision. -/
def gapC10_narrow : Gap := ⟨795, 807, 801, 12, 20⟩

/-- Right gap of the C10 witness list. -/
def gapC10_right : Gap := ⟨2390, 2415, 2402, 25, 60⟩

/-- The C10 witness gap list: two left gaps of different widths plus one
right gap. -/
def gapsC10 : List Gap := [gapC10_wide, gapC10_narrow, gapC10_right]

/-- Witness for C10: on `gapsC10` the left selection is the wide gap, the
narrow left gap is dominated, and the decision equals the decision on the
reduced two-gap list. -/
theorem classification_uses_widest_gap_per_side_witness :
    sideSelect true gapsC10 = some gapC10_wide ∧ gapC10_narrow ∈ gapsC10 ∧
    sidePred true gapC10_narrow ∧
    (gapC10_narrow.width ≤ gapC10_wide.width ∧
     classifyFromGaps gapsC10 4000 =
       classifyFromGaps
         ((selectLeftGap gapsC10).toList ++ (selectRightGap gapsC10).toList) 4000) :=
  ⟨by decide, by decide, by show gapC10_narrow.percent < 50; decide,
   classification_uses_widest_gap_per_side gapsC10 4000 true gapC10_wide gapC10_narrow
     (by decide) (by decide) (by show gapC10_narrow.percent < 50; decide)⟩

end FilmScanner

namespace FilmScanner

/-- C1: whenever `_classify_alignment` returns one of the ALIGNED statuses
(`PERFECT_ALIGNMENT` with action `CAPTURE`, or `GOOD_ALIGNMENT` with action
`CAPTURE_OK`), the decision carries no movement: its `movement` field is
`None`, so its pixel distance is `0` and its direction is none — for every
gap set, frame-center estimate and image width. -/
theorem aligned_decisions_carry_no_movement
    (left_gap right_gap : Option Gap) (frame_width : Option ℤ)
    (fcp : ℚ) (w : ℕ)
    (h : (classifyAlignment left_gap right_gap frame_width fcp w).status =
           Status.PERFECT_ALIGNMENT ∨
         (classifyAlignment left_gap right_gap frame_width fcp w).status =
           Status.GOOD_ALIGNMENT) :
    (classifyAlignment left_gap right_gap frame_width fcp w).movement = none ∧
    pixelDistance (classifyAlignment left_gap right_gap frame_width fcp w) = 0 ∧
    direction (classifyAlignment left_gap right_gap frame_width fcp w) = none := by
  rcases left_gap with _ | lg <;> rcases right_gap with _ | rg <;>
    simp only [classifyAlignment] at h ⊢ <;>
    (try split_ifs at h ⊢) <;>
    simp_all [pixelDistance, direction, actionDirection]

/-- Scenario-B-style aligned input used to witness C1: left gap at 3% of a
4000px image (20px wide), right gap at 97% (25px wide), frame center 50%. -/
def gapWitnessL : Gap := ⟨110, 130, 120, 20, 3⟩

/-- Right gap of the C1 witness input. -/
def gapWitnessR : Gap := ⟨3868, 3893, 3880, 25, 97⟩

/-- Witness for C1: on the concrete Scenario-B input the classifier returns
`PERFECT_ALIGNMENT` and the decision indeed carries no movement. -/
theorem aligned_decisions_carry_no_movement_witness :
    ((classifyAlignment (some gapWitnessL) (some gapWitnessR) (some 3760) 50 4000).status =
        Status.PERFECT_ALIGNMENT ∨
      (classifyAlignment (some gapWitnessL) (some gapWitnessR) (some 3760) 50 4000).status =
        Status.GOOD_ALIGNMENT) ∧
    ((classifyAlignment (some gapWitnessL) (some gapWitnessR) (some 3760) 50 4000).movement = none ∧
     pixelDistance (classifyAlignment (some gapWitnessL) (some gapWitnessR) (some 3760) 50 4000) = 0 ∧
     direction (classifyAlignment (some gapWitnessL) (some gapWitnessR) (some 3760) 50 4000) = none) :=
  ⟨Or.inl (by decide),
   aligned_decisions_carry_no_movement (some gapWitnessL) (some gapWitnessR)
     (some 3760) 50 4000 (Or.inl (by decide))⟩

/-- C3 (amended): for every fixed `pixels_per_step > 0` the conversion is
monotone non-decreasing in the pixel distance, and the result is exactly
the zero-truncation of `pixels / pixels_per_step` — the source applies no
clamping. -/
theorem step_conversion_monotone (p₁ p₂ pps : ℚ) (hpps : 0 < pps) (h : p₁ ≤ p₂) :
    pixels_to_motor_steps p₁ pps ≤ pixels_to_motor_steps p₂ pps ∧
    pixels_to_motor_steps p₁ pps = pyInt (p₁ / pps) :=
  ⟨pyInt_mono (by gcongr), rfl⟩

/-- Witness for C3's amended theorem at `pixels = 2 ≤ 10`,
`pixels_per_step = 2`. -/
theorem step_conversion_monotone_witness :
    (0 : ℚ) < 2 ∧ (2 : ℚ) ≤ 10 ∧
    (pixels_to_motor_steps 2 2 ≤ pixels_to_motor_steps 10 2 ∧
      pixels_to_motor_steps 2 2 = pyInt (2 / 2)) :=
  ⟨by norm_num, by norm_num, step_conversion_monotone 2 10 2 (by norm_num) (by norm_num)⟩

/-- Counterexample for C3 as stated: `pixels_to_motor_steps` performs no
minimum clamp — the nonzero pixel distance `1` with the default
`pixels_per_step = 2` yields `int(1 / 2) = 0` steps, a 0-step no-op. -/
theorem step_conversion_zero_steps_counterexample :
    pixels_to_motor_steps 1 2 = 0 ∧ (0 : ℚ) < 1 := by
  with_unfolding_all decide

/-- Left gap of the Scenario C input: 3% of a 4000px image, 20px wide. -/
def gapC6_L : Gap := ⟨110, 130, 120, 20, 3⟩

/-- Right gap of the Scenario C input: 60% of a 4000px image, 25px wide. -/
def gapC6_R : Gap := ⟨2388, 2413, 2400, 25, 60⟩

/-- C6 (Scenario C): with both gaps found — left at 3% (20px), right at 60%
(25px) — the frame center evaluates to 31.5% and the classifier returns the
advance-class decision `FRAME_LEFT`/`ADVANCE_MEDIUM` (the spec's
`NEEDS_ADVANCE`) whose pixel distance is `(50 − 31.5)/100 × 4000 = 740`,
with forward direction. -/
theorem scenarioC_needs_advance :
    classifyFromGaps [gapC6_L, gapC6_R] 4000 =
      ⟨Status.FRAME_LEFT, Action.ADVANCE_MEDIUM, some 740⟩ ∧
    direction (classifyFromGaps [gapC6_L, gapC6_R] 4000) = some Direction.forward ∧
    ((pixelDistance (classifyFromGaps [gapC6_L, gapC6_R] 4000) : ℚ) =
      (50 - 31.5) / 100 * 4000) := by
  with_unfolding_all decide

/-- The Scenario A gap: a single 30px gap centered at 8% of a 4000px
image. -/
def gapC7 : Gap := ⟨305, 335, 320, 30, 8⟩

/-- Counterexample for C7 as stated: on the Scenario A input (a single 30px
gap at 8% of a 4000px image) the classifier's decision is not
NEEDS_BACKUP-class — its direction is not backward and its action is
neither backup action. -/
theorem scenarioA_not_backup_class :
    direction (classifyFromGaps [gapC7] 4000) ≠ some Direction.backward ∧
    (classifyFromGaps [gapC7] 4000).action ≠ Action.BACKUP_FINE ∧
    (classifyFromGaps [gapC7] 4000).action ≠ Action.BACKUP_MEDIUM := by
  with_unfolding_all decide

/-- C7 (amended): on the Scenario A input the classifier takes the
single-left-gap, percent-below-25 branch (`FRAME_EXITING_RIGHT`, the
exiting-right policy) and returns an advance-class (`NEEDS_ADVANCE`-class)
decision `ADVANCE_COARSE` with the nonzero forward-direction distance
`int((50 − 8)/100 × 4000) = 1680`. -/
theorem scenarioA_exiting_right_advance :
    classifyFromGaps [gapC7] 4000 =
      ⟨Status.FRAME_EXITING_RIGHT, Action.ADVANCE_COARSE, some 1680⟩ ∧
    direction (classifyFromGaps [gapC7] 4000) = some Direction.forward ∧
    0 < pixelDistance (classifyFromGaps [gapC7] 4000) := by
  with_unfolding_all decide

end FilmScanner
